import Mathlib

set_option maxRecDepth 100000

/-!
Verification of the authenticated, paginated Coinbase REST client
(`coinbase-auth-playground.ipynb`): a shallow embedding of `cb_connect`,
`cb_get_all_accounts` and `cb_get_all_orders`, together with theorems about
signing, request building, transport error classification and pagination.

Bytes are modelled as `Nat` values below 256; 32-bit words as `Nat` values
reduced modulo `2 ^ 32`.
-/

namespace CB

/-! ### UTF-8 encoding (Python `str.encode('utf-8')`) -/

/-- UTF-8 encoding of a single character, as a list of bytes. -/
def utf8Char (c : Char) : List Nat :=
  let n := c.toNat
  if n < 0x80 then [n]
  else if n < 0x800 then
    [0xC0 ||| (n >>> 6), 0x80 ||| (n &&& 0x3F)]
  else if n < 0x10000 then
    [0xE0 ||| (n >>> 12), 0x80 ||| ((n >>> 6) &&& 0x3F), 0x80 ||| (n &&& 0x3F)]
  else
    [0xF0 ||| (n >>> 18), 0x80 ||| ((n >>> 12) &&& 0x3F),
     0x80 ||| ((n >>> 6) &&& 0x3F), 0x80 ||| (n &&& 0x3F)]

/-- UTF-8 encoding of a string, as a list of bytes (Python `s.encode('utf-8')`). -/
def utf8Encode (s : String) : List Nat :=
  (s.data.map utf8Char).flatten

/-! ### SHA-256 (`hashlib.sha256`) -/

/-- Reduce to a 32-bit word. -/
def w32 (n : Nat) : Nat := n % 4294967296

/-- Right rotation of a 32-bit word. -/
def rotr32 (x n : Nat) : Nat := w32 ((x >>> n) ||| (x <<< (32 - n)))

/-- Bitwise complement of a 32-bit word. -/
def notW (x : Nat) : Nat := x ^^^ 4294967295

/-- SHA-256 Ch function. -/
def chF (x y z : Nat) : Nat := (x &&& y) ^^^ (notW x &&& z)

/-- SHA-256 Maj function. -/
def majF (x y z : Nat) : Nat := (x &&& y) ^^^ (x &&& z) ^^^ (y &&& z)

/-- SHA-256 big sigma 0. -/
def bigSigma0 (x : Nat) : Nat := rotr32 x 2 ^^^ rotr32 x 13 ^^^ rotr32 x 22

/-- SHA-256 big sigma 1. -/
def bigSigma1 (x : Nat) : Nat := rotr32 x 6 ^^^ rotr32 x 11 ^^^ rotr32 x 25

/-- SHA-256 small sigma 0. -/
def smallSigma0 (x : Nat) : Nat := rotr32 x 7 ^^^ rotr32 x 18 ^^^ (x >>> 3)

/-- SHA-256 small sigma 1. -/
def smallSigma1 (x : Nat) : Nat := rotr32 x 17 ^^^ rotr32 x 19 ^^^ (x >>> 10)

/-- SHA-256 round constants. -/
def sha256K : List Nat :=
  [1116352408, 1899447441, 3049323471, 3921009573, 961987163, 1508970993,
   2453635748, 2870763221, 3624381080, 310598401, 607225278, 1426881987,
   1925078388, 2162078206, 2614888103, 3248222580, 3835390401, 4022224774,
   264347078, 604807628, 770255983, 1249150122, 1555081692, 1996064986,
   2554220882, 2821834349, 2952996808, 3210313671, 3336571891, 3584528711,
   113926993, 338241895, 666307205, 773529912, 1294757372, 1396182291,
   1695183700, 1986661051, 2177026350, 2456956037, 2730485921, 2820302411,
   3259730800, 3345764771, 3516065817, 3600352804, 4094571909, 275423344,
   430227734, 506948616, 659060556, 883997877, 958139571, 1322822218,
   1537002063, 1747873779, 1955562222, 2024104815, 2227730452, 2361852424,
   2428436474, 2756734187, 3204031479, 3329325298]

/-- SHA-256 initial hash value. -/
def sha256H0 : List Nat :=
  [1779033703, 3144134277, 1013904242, 2773480762,
   1359893119, 2600822924, 528734635, 1541459225]

/-- Big-endian 8-byte rendering of a natural number. -/
def be64 (n : Nat) : List Nat :=
  (List.range 8).map (fun i => (n >>> (8 * (7 - i))) % 256)

/-- Big-endian 4-byte rendering of a 32-bit word. -/
def be32 (n : Nat) : List Nat :=
  [(n >>> 24) % 256, (n >>> 16) % 256, (n >>> 8) % 256, n % 256]

/-- SHA-256 message padding: append `0x80`, zeros, and the 64-bit message
bit length so the total length is a multiple of 64 bytes. -/
def sha256Pad (msg : List Nat) : List Nat :=
  let L := msg.length
  let k := (119 - (L % 64)) % 64
  msg ++ [0x80] ++ List.replicate k 0 ++ be64 (8 * L)

/-- Split a byte list into chunks of 64 bytes (fuel-indexed for structural
recursion; `fuel = l.length` always suffices). -/
def chunksAux : Nat → List Nat → List (List Nat)
  | 0, _ => []
  | _, [] => []
  | fuel + 1, l => l.take 64 :: chunksAux fuel (l.drop 64)

/-- Split a byte list into chunks of 64 bytes. -/
def chunks64 (l : List Nat) : List (List Nat) := chunksAux l.length l

/-- The 16 initial 32-bit message-schedule words of a 64-byte chunk
(big-endian). -/
def chunkWords (c : List Nat) : List Nat :=
  (List.range 16).map (fun i =>
    (c.getD (4 * i) 0 <<< 24) + (c.getD (4 * i + 1) 0 <<< 16) +
    (c.getD (4 * i + 2) 0 <<< 8) + c.getD (4 * i + 3) 0)

/-- One message-schedule extension step: append word `W[n]` computed from
`W[n-2]`, `W[n-7]`, `W[n-15]`, `W[n-16]`. -/
def scheduleStep (ws : List Nat) : List Nat :=
  let n := ws.length
  ws ++ [w32 (smallSigma1 (ws.getD (n - 2) 0) + ws.getD (n - 7) 0 +
              smallSigma0 (ws.getD (n - 15) 0) + ws.getD (n - 16) 0)]

/-- Full 64-word message schedule of a chunk. -/
def schedule (ws : List Nat) : List Nat :=
  (List.range 48).foldl (fun acc _ => scheduleStep acc) ws

/-- One SHA-256 compression round. `st` is the working state
`[a, b, c, d, e, f, g, h]`; `kw` the round constant paired with the
schedule word. -/
def compressStep (st : List Nat) (kw : Nat × Nat) : List Nat :=
  let a := st.getD 0 0
  let b := st.getD 1 0
  let c := st.getD 2 0
  let d := st.getD 3 0
  let e := st.getD 4 0
  let f := st.getD 5 0
  let g := st.getD 6 0
  let h := st.getD 7 0
  let t1 := w32 (h + bigSigma1 e + chF e f g + kw.1 + kw.2)
  let t2 := w32 (bigSigma0 a + majF a b c)
  [w32 (t1 + t2), a, b, c, w32 (d + t1), e, f, g]

/-- Process one 64-byte chunk, updating the 8-word hash state. -/
def processChunk (H : List Nat) (c : List Nat) : List Nat :=
  let ws := schedule (chunkWords c)
  let v := (sha256K.zip ws).foldl compressStep H
  (H.zip v).map (fun p => w32 (p.1 + p.2))

/-- SHA-256 of a byte list, as a list of 32 bytes. -/
def sha256 (msg : List Nat) : List Nat :=
  let final := (chunks64 (sha256Pad msg)).foldl processChunk sha256H0
  (final.map be32).flatten

/-! ### HMAC-SHA256 (Python `hmac.new(key, msg, hashlib.sha256).digest()`) -/

/-- HMAC-SHA256 of a message under a key, both byte lists; result is the
32-byte digest. -/
def hmacSha256 (key msg : List Nat) : List Nat :=
  let k0 := if key.length > 64 then sha256 key else key
  let kp := k0 ++ List.replicate (64 - k0.length) 0
  let ipadKey := kp.map (fun b => b ^^^ 0x36)
  let opadKey := kp.map (fun b => b ^^^ 0x5c)
  sha256 (opadKey ++ sha256 (ipadKey ++ msg))

/-! ### Lowercase hex rendering (Python `bytes.hex()`) -/

/-- Lowercase hexadecimal digit for a value below 16. -/
def hexDigit (n : Nat) : Char :=
  if n < 10 then Char.ofNat (48 + n) else Char.ofNat (87 + n)

/-- Lowercase hexadecimal rendering of a byte list. -/
def hexLower (bs : List Nat) : String :=
  String.mk ((bs.map (fun b => [hexDigit (b / 16), hexDigit (b % 16)])).flatten)

/-- FIPS 180-2 test vector: SHA-256 of `"abc"`. -/
example : hexLower (sha256 (utf8Encode "abc")) =
    "ba7816bf8f01cfea414140de5dae2223b00361a396177a9cb410ff61f20015ad" := by decide

/-- SHA-256 of the empty message. -/
example : hexLower (sha256 []) =
    "e3b0c44298fc1c149afbf4c8996fb92427ae41e4649b934ca495991b7852b855" := by decide

/-- Classic HMAC-SHA256 test vector. -/
example : hexLower (hmacSha256 (utf8Encode "key")
      (utf8Encode "The quick brown fox jumps over the lazy dog")) =
    "f7bc83f430538424b13298e6aa6fb143ef4d59a14946175997479dbc2d1a3cd8" := by decide

/-! ### The code's signer and request builder (`cb_connect`, notebook cell 3)

```python
def cb_connect(url_path, limit=50, cursor=''):
    url_prefix = 'https://coinbase.com'
    url = url_prefix + url_path
    secret_key = CB_SECRET_KEY
    api_key = CB_API_KEY
    timestamp = str(int(time.time()))
    method = 'GET'
    body = ''
    message = timestamp + method + url_path.split('?')[0] + body
    signature = hmac.new(secret_key.encode('utf-8'), message.encode('utf-8'),
                         digestmod=hashlib.sha256).digest()
    headers = {'accept': 'application/json', 'CB-ACCESS-SIGN': signature.hex(),
               'CB-ACCESS-KEY': api_key, 'CB-ACCESS-TIMESTAMP': timestamp}
    url = url + '?limit=' + str(limit)
    if cursor != '':
        url = url + '&cursor=' + cursor
    ...
```
-/

/-- Python `url_path.split('?')[0]` on the character list: everything up to
the first `'?'`. -/
def splitHeadAux : List Char → List Char
  | [] => []
  | c :: cs => if c = '?' then [] else c :: splitHeadAux cs

/-- Python `url_path.split('?')[0]`. -/
def pySplitHead (s : String) : String := String.mk (splitHeadAux s.data)

/-- The signed message built by `cb_connect`:
`timestamp + 'GET' + url_path.split('?')[0] + ''` (the timestamp is
`str(int(time.time()))`, supplied here as the `Nat` read from the clock). -/
def cbMessage (ts : Nat) (urlPath : String) : String :=
  toString ts ++ "GET" ++ pySplitHead urlPath ++ ""

/-- The `CB-ACCESS-SIGN` header value computed by `cb_connect`:
`hmac.new(secret_key.encode('utf-8'), message.encode('utf-8'),
digestmod=hashlib.sha256).digest().hex()`. -/
def cbSignature (secretKey : String) (ts : Nat) (urlPath : String) : String :=
  hexLower (hmacSha256 (utf8Encode secretKey) (utf8Encode (cbMessage ts urlPath)))

/-- The request assembled by `cb_connect` before the network call: final URL
and header association list. -/
structure CbRequest where
  url : String
  headers : List (String × String)

/-- Request building of `cb_connect`: headers (including the signature) are
computed from `url_path` alone, then `limit` and, if non-empty, `cursor` are
appended to the URL. -/
def cbConnectRequest (secretKey apiKey : String) (ts : Nat) (urlPath : String)
    (limit : Nat) (cursor : String) : CbRequest :=
  let url := "https://coinbase.com" ++ urlPath
  let timestamp := toString ts
  let headers := [("accept", "application/json"),
                  ("CB-ACCESS-SIGN", cbSignature secretKey ts urlPath),
                  ("CB-ACCESS-KEY", apiKey),
                  ("CB-ACCESS-TIMESTAMP", timestamp)]
  let url := url ++ "?limit=" ++ toString limit
  let url := if cursor ≠ "" then url ++ "&cursor=" ++ cursor else url
  ⟨url, headers⟩

/-! ### The spec's Signer contract (spec §4.1), stated in its own words -/

/-- Modelled from the spec: "path (stripped of any query string)" — the part
of the path before the first `'?'`. -/
def stripQuery (s : String) : String :=
  String.mk (s.data.takeWhile (fun c => c != '?'))

/-- Modelled from the spec: uppercase rendering of the method string. -/
def upperAscii (s : String) : String := String.mk (s.data.map Char.toUpper)

/-- Modelled from the spec: "Canonical message = concatenation of `timestamp`
(decimal string), `method` (uppercase), `path` (stripped of any query string),
`body`". -/
def canonicalMessage (timestamp method path body : String) : String :=
  timestamp ++ upperAscii method ++ stripQuery path ++ body

/-- Modelled from the spec: "Signature = keyed cryptographic hash (HMAC with a
256-bit-digest hash function) of the message using `secret` as key, rendered
as lowercase hexadecimal". -/
def signSpec (secret timestamp method path body : String) : String :=
  hexLower (hmacSha256 (utf8Encode secret) (utf8Encode (canonicalMessage timestamp method path body)))

/-- The code's `split('?')[0]` equals the spec's query-string stripping. -/
theorem splitHeadAux_eq_takeWhile (l : List Char) :
    splitHeadAux l = l.takeWhile (fun c => c != '?') := by
  induction l with
  | nil => rfl
  | cons c cs ih =>
    by_cases h : c = '?'
    · simp [splitHeadAux, List.takeWhile, h, ih]
    · have hb : (c != '?') = true := by simpa using h
      simp [splitHeadAux, List.takeWhile, h, hb, ih]

/-- Functions `pySplitHead` and `stripQuery` agree on every path. -/
theorem pySplitHead_eq_stripQuery (s : String) : pySplitHead s = stripQuery s := by
  simp [pySplitHead, stripQuery, splitHeadAux_eq_takeWhile]

/-- The code's signed message is exactly the spec's canonical message for
method `GET` and empty body. -/
theorem cbMessage_eq_canonical (ts : Nat) (path : String) :
    cbMessage ts path = canonicalMessage (toString ts) "GET" path "" := by
  simp [cbMessage, canonicalMessage, pySplitHead_eq_stripQuery]
  rfl

/-- C4: for every call of the signer (any secret, API key, timestamp, path,
limit, cursor), the `CB-ACCESS-SIGN` header produced by `cb_connect` is the
lowercase hex rendering of HMAC-SHA256 keyed by the secret over the canonical
message: decimal timestamp ++ uppercase method (`GET`) ++ path stripped of its
query string ++ body (the empty string for these bodyless GET requests). -/
theorem c4_signature_canonical (secretKey apiKey : String) (ts : Nat)
    (urlPath : String) (limit : Nat) (cursor : String) :
    (cbConnectRequest secretKey apiKey ts urlPath limit cursor).headers =
      [("accept", "application/json"),
       ("CB-ACCESS-SIGN", signSpec secretKey (toString ts) "GET" urlPath ""),
       ("CB-ACCESS-KEY", apiKey),
       ("CB-ACCESS-TIMESTAMP", toString ts)] := by
  simp [cbConnectRequest, cbSignature, signSpec, cbMessage_eq_canonical]

/-- C5: two requests with identical secret, timestamp and path-without-query
but arbitrary differing `limit` and `cursor` query parameters carry identical
header sets — in particular identical `CB-ACCESS-SIGN` signatures: the query
parameters never enter the signed message. -/
theorem c5_query_params_not_signed (secretKey apiKey : String) (ts : Nat)
    (p1 p2 : String) (l1 c1 l2 c2 : _) (hp : pySplitHead p1 = pySplitHead p2) :
    (cbConnectRequest secretKey apiKey ts p1 l1 c1).headers =
      (cbConnectRequest secretKey apiKey ts p2 l2 c2).headers := by
  simp [cbConnectRequest, cbSignature, cbMessage, hp]

/-- Witness for C5 at concrete inputs: the path query `?foo=1`, the limit and
the cursor all differ, yet the headers (hence the signature) coincide. -/
theorem c5_witness :
    (cbConnectRequest "sec" "key" 1700000000 "/api/v3/brokerage/accounts?foo=1" 50 "abc").headers =
      (cbConnectRequest "sec" "key" 1700000000 "/api/v3/brokerage/accounts" 25 "").headers :=
  c5_query_params_not_signed "sec" "key" 1700000000 _ _ 50 "abc" 25 "" (by decide)

/-! ### String concatenation cancellation, for signer sensitivity -/

/-- Strings with equal character data are equal. -/
theorem strOfData {a b : String} (h : a.data = b.data) : a = b := by
  cases a; cases b; exact congrArg String.mk h

/-- Right cancellation for string concatenation. -/
theorem strAppend_cancel_right {a b c : String} (h : a ++ c = b ++ c) : a = b := by
  apply strOfData
  have hd := congrArg String.data h
  rw [String.data_append, String.data_append] at hd
  exact List.append_cancel_right hd

/-- Left cancellation for string concatenation. -/
theorem strAppend_cancel_left {a b c : String} (h : a ++ b = a ++ c) : b = c := by
  apply strOfData
  have hd := congrArg String.data h
  rw [String.data_append, String.data_append] at hd
  exact List.append_cancel_left hd

/-- C8 counterexample: the claim asserts that changing any one of the five
signer inputs changes the signature.  The paths `/a` and `/a?x=1` differ, yet
`cb_connect` strips the query string before signing, so the two signatures are
identical. -/
theorem c8_counterexample :
    ("/a" : String) ≠ "/a?x=1" ∧
      cbSignature "secret" 1700000000 "/a" = cbSignature "secret" 1700000000 "/a?x=1" := by
  constructor
  · decide
  · have h : cbMessage 1700000000 "/a?x=1" = cbMessage 1700000000 "/a" := by decide
    simp [cbSignature, h]

/-- C8 amended: the signer is deterministic and depends on its inputs only
through the secret and the canonical message; tuples that differ in exactly
one of timestamp, body, method-up-to-case, or path-up-to-query-stripping give
distinct canonical messages, while differences confined to method case or to
the path's query string leave the signature unchanged.  (That distinct
canonical messages yield distinct HMAC-SHA256 digests is a cryptographic
collision-freedom property, not provable from the algorithm.) -/
theorem c8_amended :
    (∀ s t m p b, signSpec s t m p b = signSpec s t m p b) ∧
    (∀ s t m m' p p' b, upperAscii m = upperAscii m' → stripQuery p = stripQuery p' →
      signSpec s t m p b = signSpec s t m' p' b) ∧
    (∀ t t' m p b, t ≠ t' →
      canonicalMessage t m p b ≠ canonicalMessage t' m p b) ∧
    (∀ t m p b b', b ≠ b' →
      canonicalMessage t m p b ≠ canonicalMessage t m p b') ∧
    (∀ t m m' p b, upperAscii m ≠ upperAscii m' →
      canonicalMessage t m p b ≠ canonicalMessage t m' p b) ∧
    (∀ t m p p' b, stripQuery p ≠ stripQuery p' →
      canonicalMessage t m p b ≠ canonicalMessage t m p' b) := by
  refine ⟨fun _ _ _ _ _ => rfl, ?_, ?_, ?_, ?_, ?_⟩
  · intro s t m m' p p' b hm hp
    simp [signSpec, canonicalMessage, hm, hp]
  · intro t t' m p b ht h
    exact ht (strAppend_cancel_right (strAppend_cancel_right (strAppend_cancel_right h)))
  · intro t m p b b' hb h
    exact hb (strAppend_cancel_left h)
  · intro t m m' p b hm h
    exact hm (strAppend_cancel_left (strAppend_cancel_right (strAppend_cancel_right h)))
  · intro t m p p' b hp h
    exact hp (strAppend_cancel_left (strAppend_cancel_right h))

/-- Witness for C8 at concrete inputs: case-only method changes and
query-only path changes leave the signature unchanged, while changing the
timestamp, the body, the method proper, or the pre-`'?'` path changes the
canonical message. -/
theorem c8_witness :
    signSpec "k" "1" "get" "/a?x=1" "" = signSpec "k" "1" "GET" "/a" "" ∧
    canonicalMessage "1" "GET" "/a" "" ≠ canonicalMessage "2" "GET" "/a" "" ∧
    canonicalMessage "1" "GET" "/a" "" ≠ canonicalMessage "1" "GET" "/a" "z" ∧
    canonicalMessage "1" "GET" "/a" "" ≠ canonicalMessage "1" "POST" "/a" "" ∧
    canonicalMessage "1" "GET" "/a" "" ≠ canonicalMessage "1" "GET" "/b" "" :=
  ⟨c8_amended.2.1 "k" "1" "get" "GET" "/a?x=1" "/a" "" (by decide) (by decide),
   c8_amended.2.2.1 "1" "2" "GET" "/a" "" (by decide),
   c8_amended.2.2.2.1 "1" "GET" "/a" "" "z" (by decide),
   c8_amended.2.2.2.2.1 "1" "GET" "POST" "/a" "" (by decide),
   c8_amended.2.2.2.2.2 "1" "GET" "/a" "/b" "" (by decide)⟩

/-! ### Credential handling (C9)

The notebook loads `CB_SECRET_KEY = os.environ.get('CB-API-SECRET')`, which is
`None` when the variable is unset, and `cb_connect` calls
`secret_key.encode('utf-8')` with no validation whatsoever. -/

/-- Errors raised by the Python code as modelled here. -/
inductive PyErr where
  | attributeError
  | jsonDecodeError
  | keyError (key : String)
  | typeError
  | valueError
deriving DecidableEq

/-- Behavior of `cb_connect` up to the point the request is issued, with the secret as
read from the environment (`none` = variable unset).  With a `None` secret,
`secret_key.encode('utf-8')` raises `AttributeError` before any request; any
actual string — including the empty string — is accepted by `hmac.new` and
the request is built and issued. -/
def cbConnectAttempt (secretKey : Option String) (apiKey : String) (ts : Nat)
    (urlPath : String) (limit : Nat) (cursor : String) : Except PyErr CbRequest :=
  match secretKey with
  | none => .error .attributeError
  | some s => .ok (cbConnectRequest s apiKey ts urlPath limit cursor)

/-- C9 counterexample: the claim asserts that an empty secret makes signing
fail with `InvalidCredential` before any request is issued.  In the code, an
empty-string secret is accepted: a signature is produced (the header is
present) and the request is built and issued. -/
theorem c9_counterexample :
    (cbConnectAttempt (some "") "key" 1700000000 "/a" 50 "").isOk = true ∧
      ((cbConnectRequest "" "key" 1700000000 "/a" 50 "").headers.map Prod.fst) =
        ["accept", "CB-ACCESS-SIGN", "CB-ACCESS-KEY", "CB-ACCESS-TIMESTAMP"] := by
  constructor
  · rfl
  · rfl

/-- C9 amended: an absent secret (unset environment variable) makes
`cb_connect` raise `AttributeError` — before any request is issued — while
every present secret string, the empty string included, is accepted: a
signature is computed and the request is issued.  No `InvalidCredential`
error exists in the code. -/
theorem c9_amended (apiKey : String) (ts : Nat) (urlPath : String)
    (limit : Nat) (cursor : String) :
    cbConnectAttempt none apiKey ts urlPath limit cursor = .error .attributeError ∧
    ∀ s, (cbConnectAttempt (some s) apiKey ts urlPath limit cursor).isOk = true :=
  ⟨rfl, fun _ => rfl⟩

/-! ### JSON values and the parsing steps of the pagination loop

```python
def cb_get_all_accounts():
    has_next = True
    cursor = ''
    lst_accounts = []
    while has_next:
        response = cb_connect(url_path='/api/v3/brokerage/accounts',
            limit=50, cursor=cursor)
        json_accounts = json.loads(response.text)
        has_next = json_accounts['has_next']
        cursor = json_accounts['cursor']
        tmp_df_accounts = pd.json_normalize(json_accounts, record_path=['accounts'])
        tmp_lst_accounts = tmp_df_accounts.values.tolist()
        lst_accounts.extend(tmp_lst_accounts)
    # Create dataframe from list at the end to improve performance
    df_accounts = pd.DataFrame(lst_accounts)
    # Add column names to final dataframe
    df_accounts.columns = tmp_df_accounts.columns.values.tolist()
    return df_accounts
```

`cb_get_all_orders` is identical with path
`/api/v3/brokerage/orders/historical/batch`, `limit=100` and record field
`'orders'`.  Records are opaque here (pandas row conversion preserves their
number and order). -/

mutual
/-- JSON values, as produced by Python `json.loads`.  Object fields are a
dedicated mutual inductive (`JsonFields`) so that the key-path flattening of
`pd.json_normalize` is plain structural recursion. -/
inductive Json where
  | null
  | bool (b : Bool)
  | num (n : Int)
  | str (s : String)
  | arr (elems : List Json)
  | obj (fields : JsonFields)

/-- The ordered key/value fields of a JSON object. -/
inductive JsonFields where
  | nil
  | cons (key : String) (val : Json) (rest : JsonFields)
end

/-- Build a field sequence from a list literal. -/
def fieldsOf : List (String × Json) → JsonFields
  | [] => .nil
  | (k, v) :: rest => .cons k v (fieldsOf rest)

/-- Whether an object has no fields (Python dict truthiness). -/
def JsonFields.isEmpty : JsonFields → Bool
  | .nil => true
  | .cons _ _ _ => false

/-- Key lookup in a JSON object's fields (Python `dict` access). -/
def objGet : JsonFields → String → Option Json
  | .nil, _ => none
  | .cons k v rest, key => if k = key then some v else objGet rest key

/-- Python `j[key]`: `KeyError` on a missing key, `TypeError` when `j` is not
an object. -/
def getItem (j : Json) (key : String) : Except PyErr Json :=
  match j with
  | .obj kvs =>
    match objGet kvs key with
    | some v => .ok v
    | none => .error (.keyError key)
  | _ => .error .typeError

/-- Python truthiness of a JSON value (`while has_next:`). -/
def truthy : Json → Bool
  | .null => false
  | .bool b => b
  | .num n => n != 0
  | .str s => s != ""
  | .arr l => !l.isEmpty
  | .obj l => !l.isEmpty

/-- Python `pd.json_normalize(j, record_path=[field])` as seen by the loop: the list
of records under `field`.  `KeyError` when the field is absent; pandas requires
the value at the record path to be a list or null ("Must be list or null"), so
a JSON `null` yields an empty record list and any other non-array value raises
`TypeError`. -/
def jsonRecords (j : Json) (field : String) : Except PyErr (List Json) :=
  match getItem j field with
  | .error e => .error e
  | .ok (.arr l) => .ok l
  | .ok .null => .ok []
  | .ok _ => .error .typeError

/-- One loop body's parsing of a page: `json.loads` (a `none` body is
unparseable text and raises `JSONDecodeError`), then `['has_next']`, then
`['cursor']`, then the record array — in the code's evaluation order. -/
def parsePage (ob : Option Json) (field : String) :
    Except PyErr (Json × Json × List Json) :=
  match ob with
  | none => .error .jsonDecodeError
  | some j =>
    match getItem j "has_next" with
    | .error e => .error e
    | .ok hn =>
      match getItem j "cursor" with
      | .error e => .error e
      | .ok cur =>
        match jsonRecords j field with
        | .error e => .error e
        | .ok recs => .ok (hn, cur, recs)

/-- What `cb_connect` hands back to the loop for one request: `noResponse`
when an exception was printed and swallowed (the function returned `None`),
otherwise the 2xx body, which either parses to a JSON value or not. -/
inductive Outcome where
  | noResponse
  | body (ob : Option Json)

/-- The cursor query parameter `cb_connect` attaches for a given loop cursor
value: nothing for `''`, the string itself otherwise; a non-string cursor
raises `TypeError` at `url + '&cursor=' + cursor`. -/
def reqOfCursor : Json → Except PyErr (Option String)
  | .str s => if s = "" then .ok none else .ok (some s)
  | _ => .error .typeError

/-- The cursor parameter carried by a request for a string-valued loop
cursor. -/
def cursorParam (c : String) : Option String :=
  if c = "" then none else some c

/-- Final observation of a pagination run: normal return with the aggregated
records, a raised exception, or fuel exhausted with the loop still running
(the Python loop is unbounded; `spin` marks a run cut off by fuel). -/
inductive FOut where
  | done (records : List Json)
  | raised (e : PyErr)
  | spin

/-- A pagination run's observables: the cursor parameters of the issued
requests, in order, and the outcome. -/
structure FetchRes where
  reqs : List (Option String)
  out : FOut

/-! ### The post-loop pandas finalization

Each iteration keeps `tmp_df = pd.json_normalize(json, record_path=[field])`;
after the loop the code builds `df = pd.DataFrame(lst)` from the accumulated
rows and assigns `df.columns = tmp_df.columns.values.tolist()` — the column
names of the LAST page's frame.  `json_normalize` gives a page one column per
distinct flattened key path over its records (nested objects joined with
`'.'`), every row carrying the full column set, and `pd.DataFrame` on the row
lists has width equal to the maximum row length (zero when there are no
rows).  The assignment raises `ValueError` ("Length mismatch") whenever the
last page's column count differs from that width. -/

/-- Flattened column key paths `json_normalize` derives from an object's
fields: nested objects recurse with a `'.'`-joined prefix; every other value
(lists included) is a leaf column. -/
def flattenCols (pre : String) : JsonFields → List String
  | .nil => []
  | .cons key (.obj kvs) rest =>
    flattenCols (pre ++ key ++ ".") kvs ++ flattenCols pre rest
  | .cons key _ rest => (pre ++ key) :: flattenCols pre rest

/-- The flattened column key paths of one record.  Records are JSON objects
per the server contract; a scalar record gets the single unnamed column
pandas assigns it. -/
def recordCols : Json → List String
  | .obj kvs => flattenCols "" kvs
  | _ => ["0"]

/-- Append a column name unless already present (first-appearance order). -/
def addCol (acc : List String) (c : String) : List String :=
  if acc.contains c then acc else acc ++ [c]

/-- The column list of `json_normalize` on a page's records: the
first-appearance union of each record's flattened key paths. -/
def pageCols (recs : List Json) : List String :=
  recs.foldl (fun acc r => (recordCols r).foldl addCol acc) []

/-- The post-loop finalization: `pd.DataFrame(lst)` followed by
`df.columns = tmp_df.columns.values.tolist()`.  `maxW` is the width of the
aggregated frame built from the rows of earlier pages, `lastRecs` the final
page's records (whose frame supplies the column names), `rows` the
accumulated records in order.  The column assignment succeeds exactly when
the last page's column count equals the final frame's width; otherwise
pandas raises `ValueError`. -/
def finalizeDf (maxW : Nat) (lastRecs rows : List Json) : FOut :=
  let lastW := (pageCols lastRecs).length
  let finalW := if lastRecs.isEmpty then maxW else max maxW lastW
  if lastW = finalW then .done rows else .raised .valueError

/-- The `while has_next:` loop of `cb_get_all_accounts` / `cb_get_all_orders`,
followed by the pandas finalization on normal exit: `srv k` is the server's
answer to the `k`-th request, `cursorJ` the loop's `cursor` variable, `acc`
the accumulator list, `maxW` the width of the frame the accumulated rows
build (a page's rows all have its column count; a page with no records
contributes no rows).  On loop exit the last page's records feed `tmp_df`'s
columns into `finalizeDf`.  Fuel-indexed: each unit of fuel allows one
iteration. -/
def fetchGo (srv : Nat → Outcome) (field : String) :
    Nat → Nat → Json → List Json → Nat → FetchRes
  | 0, _, _, _, _ => ⟨[], .spin⟩
  | fuel + 1, k, cursorJ, acc, maxW =>
    match reqOfCursor cursorJ with
    | .error e => ⟨[], .raised e⟩
    | .ok cp =>
      match srv k with
      | .noResponse => ⟨[cp], .raised .attributeError⟩
      | .body ob =>
        match parsePage ob field with
        | .error e => ⟨[cp], .raised e⟩
        | .ok (hn, cur, recs) =>
          if truthy hn then
            let r := fetchGo srv field fuel (k + 1) cur (acc ++ recs)
              (if recs.isEmpty then maxW else max maxW (pageCols recs).length)
            ⟨cp :: r.reqs, r.out⟩
          else ⟨[cp], finalizeDf maxW recs (acc ++ recs)⟩

/-- Run of `cb_get_all_accounts` against server behavior `srv`, observed up to
`fuel` loop iterations. -/
def cbGetAllAccounts (srv : Nat → Outcome) (fuel : Nat) : FetchRes :=
  fetchGo srv "accounts" fuel 0 (.str "") [] 0

/-- Run of `cb_get_all_orders` against server behavior `srv`, observed up to `fuel`
loop iterations. -/
def cbGetAllOrders (srv : Nat → Outcome) (fuel : Nat) : FetchRes :=
  fetchGo srv "orders" fuel 0 (.str "") [] 0

/-! ### Well-formed page sequences -/

/-- One page as the server reports it: `has_next`, `cursor`, and the record
array. -/
structure PageData where
  hasNext : Bool
  cursor : String
  records : List Json

/-- The JSON body encoding a page under a given record field name. -/
def pageToJson (field : String) (p : PageData) : Json :=
  .obj (fieldsOf [("has_next", .bool p.hasNext), ("cursor", .str p.cursor),
        (field, .arr p.records)])

/-- A page sequence in which every page before the last reports
`has_next = true` with a non-empty cursor and the last reports
`has_next = false`. -/
def chainOk : List PageData → Bool
  | [] => true
  | [p] => p.hasNext == false
  | p :: q :: rest => p.hasNext && (p.cursor != "") && chainOk (q :: rest)

/-- A server answering every request with the same page body. -/
def srvConstPage (p : PageData) : Nat → Outcome :=
  fun _ => .body (some (pageToJson "accounts" p))

/-- The width of the aggregated frame after serving the given pages, starting
from width `w`: pages with records contribute rows of their column count. -/
def runWidth (w : Nat) : List PageData → Nat
  | [] => w
  | p :: rest =>
    runWidth (if p.records.isEmpty then w else max w (pageCols p.records).length) rest

/-- The column count of the final page's normalized frame — the number of
column names the post-loop `df.columns` assignment supplies. -/
def lastColsLen : List PageData → Nat
  | [] => 0
  | [p] => (pageCols p.records).length
  | _ :: q :: rest => lastColsLen (q :: rest)

/-! ### Pagination lemmas -/

/-- A string-valued loop cursor is always accepted; the request carries it
exactly when it is non-empty. -/
theorem reqOfCursor_str (c : String) : reqOfCursor (.str c) = .ok (cursorParam c) := by
  by_cases h : c = "" <;> simp [reqOfCursor, cursorParam, h]

/-- Parsing a well-formed page body yields its `has_next`, `cursor` and
record array. -/
theorem parsePage_pageToJson (field : String) (p : PageData)
    (hf1 : field ≠ "has_next") (hf2 : field ≠ "cursor") :
    parsePage (some (pageToJson field p)) field =
      .ok (.bool p.hasNext, .str p.cursor, p.records) := by
  simp +decide [parsePage, pageToJson, getItem, objGet, jsonRecords,
    Ne.symm hf1, Ne.symm hf2]

/-- The `df.columns` assignment succeeds — and the accumulated rows are
returned — exactly when the last page's column count equals the final frame
width. -/
theorem finalizeDf_done (w : Nat) (lastRecs rows : List Json)
    (h : (pageCols lastRecs).length =
      (if lastRecs.isEmpty then w else max w (pageCols lastRecs).length)) :
    finalizeDf w lastRecs rows = .done rows := by
  simp only [finalizeDf]
  exact if_pos h

/-- Core pagination lemma: against a server that answers requests `k`,
`k+1`, ... with a well-formed page chain whose final page's column count
matches the aggregated frame width, the loop issues one request per page —
each carrying the previous page's cursor — and returns the concatenation of
all record arrays appended to the accumulator. -/
theorem fetchGo_chain (field : String) (hf1 : field ≠ "has_next") (hf2 : field ≠ "cursor") :
    ∀ (ps : List PageData) (srv : Nat → Outcome) (k : Nat) (c : String)
      (acc : List Json) (w fuel : Nat),
      ps ≠ [] → chainOk ps = true → ps.length ≤ fuel →
      lastColsLen ps = runWidth w ps →
      (∀ i, i < ps.length →
        srv (k + i) = .body (some (pageToJson field (ps.getD i ⟨false, "", []⟩)))) →
      fetchGo srv field fuel k (.str c) acc w =
        ⟨cursorParam c :: ps.dropLast.map (fun p => some p.cursor),
         .done (acc ++ (ps.map (fun p => p.records)).flatten)⟩ := by
  intro ps
  induction ps with
  | nil => intro srv k c acc w fuel hne _ _ _ _; exact absurd rfl hne
  | cons p tl ih =>
    intro srv k c acc w fuel _ hchain hfuel hcols hsrv
    obtain ⟨f, rfl⟩ : ∃ f, fuel = f + 1 := by
      cases fuel with
      | zero => simp at hfuel
      | succ f => exact ⟨f, rfl⟩
    have hsrv0 : srv k = .body (some (pageToJson field p)) := by
      have h0 := hsrv 0 (by simp)
      simpa using h0
    cases tl with
    | nil =>
      have hpn : p.hasNext = false := by simpa [chainOk] using hchain
      have hc : (pageCols p.records).length =
          (if p.records.isEmpty then w else max w (pageCols p.records).length) := by
        simpa [lastColsLen, runWidth] using hcols
      simp [fetchGo, reqOfCursor_str, hsrv0,
            parsePage_pageToJson field p hf1 hf2, hpn, truthy,
            finalizeDf_done _ _ _ hc]
    | cons q rest =>
      have hchain' : (p.hasNext = true ∧ ¬p.cursor = "") ∧ chainOk (q :: rest) = true := by
        simpa [chainOk] using hchain
      obtain ⟨⟨hpn, hpc⟩, hrest⟩ := hchain'
      have hsrv' : ∀ i, i < (q :: rest).length →
          srv (k + 1 + i) = .body (some (pageToJson field ((q :: rest).getD i ⟨false, "", []⟩))) := by
        intro i hi
        have h2 := hsrv (i + 1) (by simp only [List.length_cons] at hi ⊢; omega)
        rw [show k + (i + 1) = k + 1 + i from by omega] at h2
        simpa using h2
      have hfuel' : (q :: rest).length ≤ f := by
        simp only [List.length_cons] at hfuel ⊢; omega
      have hcols' : lastColsLen (q :: rest) =
          runWidth (if p.records.isEmpty then w else max w (pageCols p.records).length)
            (q :: rest) := by
        simpa [lastColsLen, runWidth] using hcols
      have hr := ih srv (k + 1) p.cursor (acc ++ p.records)
        (if p.records.isEmpty then w else max w (pageCols p.records).length) f
        (by simp) hrest hfuel' hcols' hsrv'
      simp [fetchGo, reqOfCursor_str, hsrv0, parsePage_pageToJson field p hf1 hf2,
            hpn, truthy, hr, cursorParam, hpc]

/-- A server serving page 1 with one record and then a final page with no
records — a well-formed chain a paginated API may legitimately produce. -/
def srvLastEmpty : Nat → Outcome :=
  fun k =>
    if k = 0 then .body (some (pageToJson "accounts" ⟨true, "c1", [.obj (fieldsOf [("name", .str "A")])]⟩))
    else .body (some (pageToJson "accounts" ⟨false, "", []⟩))

/-- C1 counterexample: the claim promises the concatenation for every
successfully parsed chain, but when the final page has no records after a
non-empty earlier page, `tmp_df` (the last page's frame) has zero columns
while the aggregated frame has one, so `df.columns = tmp_df.columns...`
raises `ValueError` instead of returning the records. -/
theorem c1_counterexample :
    chainOk [⟨true, "c1", [.obj (fieldsOf [("name", .str "A")])]⟩, ⟨false, "", ([] : List Json)⟩] = true ∧
    cbGetAllAccounts srvLastEmpty 2 = ⟨[none, some "c1"], .raised .valueError⟩ :=
  ⟨rfl, rfl⟩

/-- C1 amended: for every finite page sequence P1..Pn (all but the last with
`has_next = true` and a non-empty cursor, the last with `has_next = false`)
served in order, and whose final page's normalized column count equals the
aggregated frame's width (so the post-loop `df.columns` assignment succeeds —
notably whenever all pages' records share one column layout and the final
page has records, or no records were returned at all), `cb_get_all_accounts`
and `cb_get_all_orders` return exactly the concatenation of the record arrays
in page order, issue the first request with no cursor, and issue the request
for page k+1 with precisely the cursor returned by page k. -/
theorem c1_amended (ps : List PageData) (srvA srvO : Nat → Outcome)
    (fuel : Nat) (hne : ps ≠ []) (hchain : chainOk ps = true) (hfuel : ps.length ≤ fuel)
    (hcols : lastColsLen ps = runWidth 0 ps)
    (hsrvA : ∀ i, i < ps.length →
      srvA i = .body (some (pageToJson "accounts" (ps.getD i ⟨false, "", []⟩))))
    (hsrvO : ∀ i, i < ps.length →
      srvO i = .body (some (pageToJson "orders" (ps.getD i ⟨false, "", []⟩)))) :
    cbGetAllAccounts srvA fuel =
      ⟨none :: ps.dropLast.map (fun p => some p.cursor),
       .done ((ps.map (fun p => p.records)).flatten)⟩ ∧
    cbGetAllOrders srvO fuel =
      ⟨none :: ps.dropLast.map (fun p => some p.cursor),
       .done ((ps.map (fun p => p.records)).flatten)⟩ := by
  constructor
  · have h := fetchGo_chain "accounts" (by decide) (by decide) ps srvA 0 "" [] 0 fuel
      hne hchain hfuel hcols (by simpa using hsrvA)
    simpa [cbGetAllAccounts, cursorParam] using h
  · have h := fetchGo_chain "orders" (by decide) (by decide) ps srvO 0 "" [] 0 fuel
      hne hchain hfuel hcols (by simpa using hsrvO)
    simpa [cbGetAllOrders, cursorParam] using h

/-- First page of the spec §8 example: records `[A, B]`, `has_next = true`,
cursor `c1` (records as one-field objects, so every page normalizes to the
single column `name`). -/
def pageEx1 : PageData := ⟨true, "c1", [.obj (fieldsOf [("name", .str "A")]), .obj (fieldsOf [("name", .str "B")])]⟩

/-- Second page of the spec §8 example: records `[C]`, `has_next = false`. -/
def pageEx2 : PageData := ⟨false, "", [.obj (fieldsOf [("name", .str "C")])]⟩

/-- The spec §8 example server for the accounts resource. -/
def srvExampleA : Nat → Outcome :=
  fun k => if k = 0 then .body (some (pageToJson "accounts" pageEx1))
           else .body (some (pageToJson "accounts" pageEx2))

/-- The spec §8 example server for the orders resource. -/
def srvExampleO : Nat → Outcome :=
  fun k => if k = 0 then .body (some (pageToJson "orders" pageEx1))
           else .body (some (pageToJson "orders" pageEx2))

/-- Witness for C1 at the spec §8 example: page 1 = `[A, B]` with cursor
`c1`, page 2 = `[C]` (all records one-column objects, so the finalization
succeeds); the aggregated result is `[A, B, C]`, the first request carries no
cursor and the second carries `c1`. -/
theorem c1_witness :
    cbGetAllAccounts srvExampleA 2 =
      ⟨[none, some "c1"],
       .done [.obj (fieldsOf [("name", .str "A")]), .obj (fieldsOf [("name", .str "B")]), .obj (fieldsOf [("name", .str "C")])]⟩ ∧
    cbGetAllOrders srvExampleO 2 =
      ⟨[none, some "c1"],
       .done [.obj (fieldsOf [("name", .str "A")]), .obj (fieldsOf [("name", .str "B")]), .obj (fieldsOf [("name", .str "C")])]⟩ := by
  have h := c1_amended [pageEx1, pageEx2] srvExampleA srvExampleO 2
    (by simp) (by decide) (by simp) (by decide)
    (fun i hi => by
      have hi2 : i < 2 := by simpa using hi
      interval_cases i <;> rfl)
    (fun i hi => by
      have hi2 : i < 2 := by simpa using hi
      interval_cases i <;> rfl)
  exact h

/-! ### Unbounded looping (C2, C10) -/

/-- Against a constant always-`has_next` page, every unit of fuel is consumed
by one more request: the loop shows no bound and never finishes. -/
theorem fetchGo_const_spin (p : PageData) (hp : p.hasNext = true) :
    ∀ (fuel k : Nat) (c : String) (acc : List Json) (w : Nat),
      (fetchGo (srvConstPage p) "accounts" fuel k (.str c) acc w).out = .spin ∧
      (fetchGo (srvConstPage p) "accounts" fuel k (.str c) acc w).reqs.length = fuel := by
  intro fuel
  induction fuel with
  | zero => intro k c acc w; exact ⟨rfl, rfl⟩
  | succ f ih =>
    intro k c acc w
    obtain ⟨h1, h2⟩ := ih (k + 1) p.cursor (acc ++ p.records)
      (if p.records.isEmpty then w else max w (pageCols p.records).length)
    simp [fetchGo, reqOfCursor_str, srvConstPage,
          parsePage_pageToJson "accounts" p (by decide) (by decide), hp, truthy, h1, h2]

/-- The always-`has_next` server of the spec's termination requirement. -/
def srvAlwaysNext : Nat → Outcome := srvConstPage ⟨true, "c", []⟩

/-- C2 (code bug): the `while has_next:` loop has no iteration bound and no
`PaginationLimitExceeded` error (no such error exists in the code).  Against
a server that always reports `has_next = true`, the run is still inside the
loop after every available iteration — `spin`, one request per unit of fuel —
for every fuel value, i.e. the loop never terminates. -/
theorem c2_unbounded_pagination (fuel : Nat) :
    (cbGetAllAccounts srvAlwaysNext fuel).out = .spin ∧
    (cbGetAllAccounts srvAlwaysNext fuel).reqs.length = fuel :=
  fetchGo_const_spin ⟨true, "c", []⟩ rfl fuel 0 "" [] 0

/-- With `has_next = true` and an empty cursor on every page, every request
the loop issues carries no cursor parameter. -/
theorem fetchGo_emptyCursor_reqs (recs : List Json) :
    ∀ (fuel k : Nat) (acc : List Json) (w : Nat),
      (fetchGo (srvConstPage ⟨true, "", recs⟩) "accounts" fuel k (.str "") acc w).reqs =
        List.replicate fuel none := by
  intro fuel
  induction fuel with
  | zero => intro k acc w; rfl
  | succ f ih =>
    intro k acc w
    have h := ih (k + 1) (acc ++ recs)
      (if recs.isEmpty then w else max w (pageCols recs).length)
    simp [fetchGo, reqOfCursor_str, srvConstPage,
          parsePage_pageToJson "accounts" ⟨true, "", recs⟩ (by decide) (by decide),
          truthy, h, cursorParam, List.replicate_succ]

/-- C10 counterexample: a page reporting `has_next = true` with an empty
cursor is not treated as an error.  The loop silently continues and the
second request carries no cursor parameter — identical to the first-page
request. -/
theorem c10_counterexample :
    (cbGetAllAccounts (srvConstPage ⟨true, "", []⟩) 2).reqs = [none, none] ∧
    (cbGetAllAccounts (srvConstPage ⟨true, "", []⟩) 2).out = .spin :=
  ⟨rfl, rfl⟩

/-- C10 amended: the code never checks the `has_next`/`cursor` contract.  A
server reporting `has_next = true` with an empty cursor makes the loop
re-issue the cursorless first-page request forever: every request in the run
carries no cursor parameter, no error is surfaced, and the loop never
leaves its fetching state. -/
theorem c10_amended (recs : List Json) (fuel : Nat) :
    (cbGetAllAccounts (srvConstPage ⟨true, "", recs⟩) fuel).reqs =
      List.replicate fuel none ∧
    (cbGetAllAccounts (srvConstPage ⟨true, "", recs⟩) fuel).out = .spin :=
  ⟨fetchGo_emptyCursor_reqs recs fuel 0 [] 0,
   (fetchGo_const_spin ⟨true, "", recs⟩ rfl fuel 0 "" [] 0).1⟩

/-! ### Mid-pagination failure (C3) -/

/-- A server whose first page succeeds (records `[A]`, `has_next = true`,
cursor `c1`) and whose second request fails: `cb_connect` prints the
exception and returns `None`. -/
def srvFailPage2 : Nat → Outcome :=
  fun k => if k = 0 then .body (some (pageToJson "accounts" ⟨true, "c1", [.str "A"]⟩))
           else .noResponse

/-- C3 (code bug): when page 2 fails, `cb_connect` swallows the underlying
transport error (prints it and returns `None`) and the loop then crashes on
`response.text` with `AttributeError`.  The caller gets `AttributeError`
rather than the underlying error, and no partial records — here page 1's
`[A]` — are returned. -/
theorem c3_error_swallowed (fuel : Nat) :
    (cbGetAllAccounts srvFailPage2 (fuel + 2)).out = .raised .attributeError ∧
    (cbGetAllAccounts srvFailPage2 (fuel + 2)).reqs = [none, some "c1"] ∧
    ∀ l, (cbGetAllAccounts srvFailPage2 (fuel + 2)).out ≠ .done l := by
  have h : cbGetAllAccounts srvFailPage2 (fuel + 2) =
      ⟨[none, some "c1"], .raised .attributeError⟩ := rfl
  refine ⟨by rw [h], by rw [h], ?_⟩
  intro l hl
  rw [h] at hl
  exact FOut.noConfusion hl

/-! ### Transport error classification (C6)

The notebook imports `HTTPError` from `urllib.error` (cell 2), while
`response.raise_for_status()` raises `requests.exceptions.HTTPError`.  The
relevant Python class hierarchies:
`requests.exceptions.HTTPError < RequestException < OSError < Exception` and
`urllib.error.HTTPError < URLError < OSError < Exception`. -/

/-- The Python exception classes involved in `cb_connect`'s handlers. -/
inductive PyClass where
  | pyException
  | osError
  | requestException
  | requestsHTTPError
  | requestsConnectionError
  | urlError
  | urllibHTTPError
deriving DecidableEq

/-- Each class together with its superclasses (Python method resolution
order, restricted to the classes modelled). -/
def ancestors : PyClass → List PyClass
  | .pyException => [.pyException]
  | .osError => [.osError, .pyException]
  | .requestException => [.requestException, .osError, .pyException]
  | .requestsHTTPError => [.requestsHTTPError, .requestException, .osError, .pyException]
  | .requestsConnectionError => [.requestsConnectionError, .requestException, .osError, .pyException]
  | .urlError => [.urlError, .osError, .pyException]
  | .urllibHTTPError => [.urllibHTTPError, .urlError, .osError, .pyException]

/-- Python `except B` matching for a raised exception of class `a`. -/
def isSubclass (a b : PyClass) : Bool := (ancestors a).contains b

/-- Python `response.raise_for_status()`: raises `requests.exceptions.HTTPError`
exactly for 4xx and 5xx statuses. -/
def raiseForStatus (status : Nat) : Option PyClass :=
  if 400 ≤ status ∧ status < 600 then some .requestsHTTPError else none

/-- Which of `cb_connect`'s branches handles an exception of a given class:
`except HTTPError` (the imported `urllib.error.HTTPError`) is tried first,
then `except Exception`. -/
inductive HandlerBranch where
  | httpBranch
  | otherBranch
  | noRaise
deriving DecidableEq

/-- The branch taken by `cb_connect`'s `try`/`except` for a raised class. -/
def handlerFor (e : PyClass) : HandlerBranch :=
  if isSubclass e .urllibHTTPError then .httpBranch
  else if isSubclass e .pyException then .otherBranch
  else .noRaise

/-- The branch `cb_connect` takes for a response of a given HTTP status. -/
def cbConnectBranch (status : Nat) : HandlerBranch :=
  match raiseForStatus status with
  | none => .noRaise
  | some e => handlerFor e

/-- C6 (code bug): a non-2xx response raises `requests.exceptions.HTTPError`,
which is not a subclass of the imported `urllib.error.HTTPError`, so the
dedicated `except HTTPError` branch never matches it: non-2xx statuses (404,
500) are reported through the generic `except Exception` catch-all branch —
the same branch that handles connection failures — not through the HTTP-error
branch. -/
theorem c6_non2xx_misclassified :
    raiseForStatus 404 = some .requestsHTTPError ∧
    isSubclass .requestsHTTPError .urllibHTTPError = false ∧
    cbConnectBranch 404 = .otherBranch ∧
    cbConnectBranch 404 ≠ .httpBranch ∧
    cbConnectBranch 500 = .otherBranch ∧
    handlerFor .requestsConnectionError = .otherBranch := by decide

/-! ### Malformed responses (C7) -/

/-- A page body whose record field holds JSON `null` (and reports no further
pages). -/
def nullFieldBody : Json :=
  .obj (fieldsOf [("has_next", .bool false), ("cursor", .str ""), ("accounts", .null)])

/-- A page body whose record field holds JSON `null` while reporting
`has_next = true` with cursor `c`. -/
def nullFieldBodyNext : Json :=
  .obj (fieldsOf [("has_next", .bool true), ("cursor", .str "c"), ("accounts", .null)])

/-- C7 counterexample: the claim covers every non-array record field, but
pandas `json_normalize` accepts JSON `null` at the record path ("Must be list
or null") as an empty record list.  A body with `"accounts": null` parses as
an empty page: the run returns normally as if there were no more data, and
with `has_next = true` pagination simply continues to the next request. -/
theorem c7_counterexample :
    parsePage (some nullFieldBody) "accounts" = .ok (.bool false, .str "", []) ∧
    cbGetAllAccounts (fun _ => .body (some nullFieldBody)) 1 = ⟨[none], .done []⟩ ∧
    (cbGetAllAccounts (fun _ => .body (some nullFieldBodyNext)) 2).reqs = [none, some "c"] :=
  ⟨rfl, rfl, rfl⟩

/-- C7 amended: whenever the current page's body fails to parse — invalid
JSON, a missing `has_next`/`cursor`/record field, or a non-array, non-null
record field — the loop raises that parse error to the caller after this
single request: the run is never treated as a successful (empty or otherwise)
result and no further page is requested.  A JSON `null` record field,
however, is accepted by `json_normalize` as an empty record list, so such a
page is treated as an empty page. -/
theorem c7_amended :
    (∀ (srv : Nat → Outcome) (field : String) (ob : Option Json) (e : PyErr)
       (k fuel : Nat) (cJ : Json) (cp : Option String) (acc : List Json) (w : Nat),
      srv k = .body ob → parsePage ob field = .error e → reqOfCursor cJ = .ok cp →
      fetchGo srv field (fuel + 1) k cJ acc w = ⟨[cp], .raised e⟩ ∧
        ∀ l, FOut.raised e ≠ FOut.done l) ∧
    (∀ (kvs : JsonFields) (field : String),
      objGet kvs field = some .null → jsonRecords (.obj kvs) field = .ok []) := by
  constructor
  · intro srv field ob e k fuel cJ cp acc w hsrv hparse hreq
    exact ⟨by simp [fetchGo, hreq, hsrv, hparse], fun l hl => FOut.noConfusion hl⟩
  · intro kvs field h
    simp [jsonRecords, getItem, h]

/-- Witness for C7: a body with `has_next` and `cursor` but no `accounts`
field yields `KeyError('accounts')` — surfaced, one request, not an empty
page — while a `null` record field parses as an empty record list. -/
theorem c7_witness :
    fetchGo (fun _ => .body (some (Json.obj (fieldsOf [("has_next", .bool false), ("cursor", .str "")]))))
        "accounts" 1 0 (.str "") [] 0 = ⟨[none], .raised (.keyError "accounts")⟩ ∧
    jsonRecords (.obj (fieldsOf [("accounts", Json.null)])) "accounts" = .ok [] :=
  ⟨(c7_amended.1
     (fun _ => .body (some (Json.obj (fieldsOf [("has_next", .bool false), ("cursor", .str "")]))))
     "accounts" (some (Json.obj (fieldsOf [("has_next", .bool false), ("cursor", .str "")])))
     (.keyError "accounts") 0 0 (.str "") none [] 0 rfl rfl rfl).1,
   c7_amended.2 (fieldsOf [("accounts", Json.null)]) "accounts" rfl⟩

end CB
